import Mathlib

/-!
Shallow embedding of the ESP32 IR controller firmware (src/src/main.cpp):
UDP binary protocol parser with dedup/acknowledgement, command dispatcher,
bounded circular action queue with non-blocking executor, RC5 encoder with
toggle bit, siren pulse-train engine, status-LED engine and OTA service gate.

Conventions: C `uint8_t`/`uint16_t`/`unsigned long` values are `Nat`, with
`% 256` / `% 65536` inserted exactly where the C code truncates (array of
bytes, explicit casts).  `millis()` is threaded as a `now : Nat` parameter.
Hardware and library collaborators (IRsend, WiFiUDP, ArduinoOTA, GPIO) are
modelled by their observable effects: emitted events and stored pin levels.
-/

namespace Firmware

-- ===== Spec constants (src/src/main.cpp lines 66-87) =====

def MAGIC : Nat := 0xA5
def VER : Nat := 0x01
def CMD_ACK : Nat := 0x7F
def CMD_MODE_SWITCH : Nat := 0x40
def CMD_RESET_SCOREBOARD : Nat := 0x41
def CMD_SIREN : Nat := 0x60
def CMD_OTA_MODE : Nat := 0x70
def IR_GAP_MS_DEFAULT : Nat := 100
def IR_GAP_MS_EXIT3_END : Nat := 500
def OTA_WINDOW_MS : Nat := 180000
def ACTIVITY_BLINK_ON_MS : Nat := 70
def ACTIVITY_BLINK_OFF_MS : Nat := 70
def ACTIVITY_BLINK_COUNT : Nat := 4
def WIFI_RETRY_INTERVAL_MS : Nat := 3000

-- ===== Byte helpers (lines 260-266) =====

/-- `readU16LE`: `p[0] | (p[1] << 8)`. -/
def readU16LE (b0 b1 : Nat) : Nat := b0 ||| (b1 <<< 8)

/-- `writeU16LE`: low byte then high byte, with the `uint8_t` casts. -/
def writeU16LE (v : Nat) : List Nat := [v % 256, (v >>> 8) % 256]

-- ===== Action queue (lines 279-302): bounded circular buffer =====

inductive ActionType : Type
  | Press
  | Delay
deriving DecidableEq

structure Action where
  type : ActionType
  arg : Nat
deriving DecidableEq

instance : Inhabited Action := ⟨⟨ActionType.Press, 0⟩⟩

def QSIZE : Nat := 32

/-- The circular buffer `q[QSIZE]` with `qHead`, `qTail`, `qCount`.
The C array is modelled as a total function `Nat → Action`. -/
structure Queue where
  arr : Nat → Action
  head : Nat
  tail : Nat
  count : Nat

def emptyQueue : Queue := ⟨fun _ => default, 0, 0, 0⟩

/-- `qPush` (lines 287-293): fails when full, else writes at tail. -/
def qPush (q : Queue) (a : Action) : Queue × Bool :=
  if q.count ≥ QSIZE then (q, false)
  else ({ arr := fun i => if i = q.tail then a else q.arr i,
          head := q.head,
          tail := (q.tail + 1) % QSIZE,
          count := q.count + 1 }, true)

/-- `qPop` (lines 294-300). -/
def qPop (q : Queue) : Option (Action × Queue) :=
  if q.count = 0 then none
  else some (q.arr q.head,
    { q with head := (q.head + 1) % QSIZE, count := q.count - 1 })

/-- Abstraction: the queue's contents in FIFO order. -/
def Queue.toList (q : Queue) : List Action :=
  (List.range q.count).map (fun i => q.arr ((q.head + i) % QSIZE))

/-- Structural invariant of the circular buffer maintained by push/pop. -/
def Queue.WF (q : Queue) : Prop :=
  q.head < QSIZE ∧ q.count ≤ QSIZE ∧ q.tail = (q.head + q.count) % QSIZE

instance : DecidablePred Queue.WF := fun q => by
  unfold Queue.WF; infer_instance

/-- `queuePress` (line 301): push, ignoring the success flag. -/
def queuePress (idx : Nat) (q : Queue) : Queue :=
  (qPush q ⟨ActionType.Press, idx⟩).1

/-- `queueDelay` (line 302): push, ignoring the success flag. -/
def queueDelay (ms : Nat) (q : Queue) : Queue :=
  (qPush q ⟨ActionType.Delay, ms⟩).1

-- ===== RC5 table and encoder (lines 216-274) =====

def RC5_TOGGLE_MASK_12BIT : Nat := 0x800

structure Rc5Entry where
  bits : Nat
  v_t0 : Nat
  v_t1 : Nat
deriving DecidableEq

instance : Inhabited Rc5Entry := ⟨⟨12, 0, 0⟩⟩

/-- One table row: `{12, v & ~RC5_TOGGLE_MASK_12BIT, v | RC5_TOGGLE_MASK_12BIT}`
(the C `~` is on `uint64_t`, so `& 0xFFFFFFFFFFFFF7FF`). -/
def rc5Entry (v : Nat) : Rc5Entry :=
  ⟨12, v &&& 0xFFFFFFFFFFFFF7FF, v ||| RC5_TOGGLE_MASK_12BIT⟩

/-- `RC5_TABLE[27]` (lines 225-253), values in exact source order. -/
def RC5_TABLE : List Rc5Entry :=
  [rc5Entry 0x8CA, rc5Entry 0x0CB, rc5Entry 0x80C, rc5Entry 0x02F,
   rc5Entry 0x838, rc5Entry 0x021, rc5Entry 0x820, rc5Entry 0x022,
   rc5Entry 0x0E6, rc5Entry 0x80D, rc5Entry 0x011, rc5Entry 0x810,
   rc5Entry 0x02B, rc5Entry 0x800, rc5Entry 0x801, rc5Entry 0x002,
   rc5Entry 0x803, rc5Entry 0x02E, rc5Entry 0x804, rc5Entry 0x005,
   rc5Entry 0x806, rc5Entry 0x02C, rc5Entry 0x807, rc5Entry 0x008,
   rc5Entry 0x809, rc5Entry 0x029, rc5Entry 0x80F]

def IDX_EXIT : Nat := 2
def IDX_8 : Nat := 23
def IDX_9 : Nat := 24

/-- `sendRc5Press` (lines 268-274): flip the toggle, then pick the variant
for the *new* toggle value.  Returns (new toggle, emitted value, bit count);
the LED burst it triggers is handled by the caller in this model. -/
def sendRc5Press (toggle idx : Nat) : Nat × Nat × Nat :=
  let t := toggle ^^^ 1
  let e := RC5_TABLE.getD idx default
  (t, if t = 0 then e.v_t0 else e.v_t1, e.bits)

-- ===== Macros (lines 304-324) =====

/-- `queueMacroModeSwitch` (lines 304-311): exit x3, last gap 500ms. -/
def queueMacroModeSwitch (q : Queue) : Queue :=
  q |> queuePress IDX_EXIT |> queueDelay IR_GAP_MS_DEFAULT
    |> queuePress IDX_EXIT |> queueDelay IR_GAP_MS_DEFAULT
    |> queuePress IDX_EXIT |> queueDelay IR_GAP_MS_EXIT3_END

/-- `queueMacroResetScoreboard` (lines 313-324): pause (9), then 8 x3. -/
def queueMacroResetScoreboard (q : Queue) : Queue :=
  q |> queuePress IDX_9 |> queueDelay IR_GAP_MS_DEFAULT
    |> queuePress IDX_8 |> queueDelay IR_GAP_MS_DEFAULT
    |> queuePress IDX_8 |> queueDelay IR_GAP_MS_DEFAULT
    |> queuePress IDX_8

-- ===== Siren engine (lines 152-210) =====

structure SirenState where
  active : Bool
  count : Nat
  onMs : Nat → Nat
  offMs : Nat → Nat
  index : Nat
  phaseOn : Bool
  nextMs : Nat
  /-- logical output level (`sirenWrite`, active-high). -/
  out : Bool

def initSiren : SirenState :=
  ⟨false, 0, fun _ => 0, fun _ => 0, 0, false, 0, false⟩

/-- `sirenStop` (lines 166-173). -/
def sirenStop (s : SirenState) : SirenState :=
  { s with active := false, count := 0, index := 0, phaseOn := false,
           nextMs := 0, out := false }

/-- `sirenStart` (lines 175-187): copy the first `count` durations (of at
most 5 slots, the rest zeroed), restart at phase 0 ON. -/
def sirenStart (count : Nat) (onArr offArr : Nat → Nat) (now : Nat)
    (s : SirenState) : SirenState :=
  let onMs : Nat → Nat := fun i =>
    if i < 5 then (if i < count then onArr i else 0) else s.onMs i
  let offMs : Nat → Nat := fun i =>
    if i < 5 then (if i < count then offArr i else 0) else s.offMs i
  { active := true, count := count, onMs := onMs, offMs := offMs,
    index := 0, phaseOn := true, nextMs := now + onMs 0, out := true }

/-- `sirenTick` (lines 189-210). -/
def sirenTick (now : Nat) (s : SirenState) : SirenState :=
  if s.active = false then s
  else if now < s.nextMs then s
  else if s.phaseOn = true then
    { s with out := false, phaseOn := false, nextMs := now + s.offMs s.index }
  else if s.index + 1 ≥ s.count then sirenStop s
  else
    { s with index := s.index + 1, phaseOn := true, out := true,
             nextMs := now + s.onMs (s.index + 1) }

-- ===== Status LED engine (lines 104-147) =====

structure LedState where
  /-- GPIO level written by `statusLedWrite`. -/
  out : Bool
  inBurst : Bool
  level : Bool
  nextMs : Nat
  togglesLeft : Nat
deriving DecidableEq

def initLed : LedState := ⟨false, false, false, 0, 0⟩

/-- `statusLedSetBase` (lines 113-116): mirror link state. -/
def statusLedSetBase (wifi : Bool) (led : LedState) : LedState :=
  { led with out := wifi, level := wifi }

/-- `statusLedActivityBurst` (lines 118-124): 4 on/off cycles. -/
def statusLedActivityBurst (now : Nat) (led : LedState) : LedState :=
  { led with inBurst := true, togglesLeft := ACTIVITY_BLINK_COUNT * 2,
             out := false, level := false,
             nextMs := now + ACTIVITY_BLINK_OFF_MS }

/-- `statusLedTick` (lines 126-147). -/
def statusLedTick (now : Nat) (wifi : Bool) (led : LedState) : LedState :=
  if led.inBurst = false then statusLedSetBase wifi led
  else if now < led.nextMs then led
  else
    let led1 := { led with out := !led.level, level := !led.level }
    let led2 := { led1 with togglesLeft :=
      if led1.togglesLeft > 0 then led1.togglesLeft - 1 else led1.togglesLeft }
    if led2.togglesLeft = 0 then
      statusLedSetBase wifi { led2 with inBurst := false }
    else
      { led2 with nextMs := now +
          (if led2.level then ACTIVITY_BLINK_ON_MS else ACTIVITY_BLINK_OFF_MS) }

-- ===== Whole-system state (the firmware's globals) =====

structure Sys where
  led : LedState
  siren : SirenState
  /-- `rc5_toggle_state` (line 216). -/
  rc5Toggle : Nat
  queue : Queue
  /-- `delayUntilMs` (line 285). -/
  delayUntilMs : Nat
  lastId : Nat
  lastIdValid : Bool
  lastAckStatus : Nat
  otaEnabled : Bool
  otaInitDone : Bool
  otaUntilMs : Nat
  nextWifiRetryMs : Nat

/-- Boot state (`setup`, lines 545-570): everything at its default. -/
def initSys : Sys :=
  ⟨initLed, initSiren, 0, emptyQueue, 0, 0, false, 0, false, false, 0, 0⟩

-- ===== OTA service gate (lines 351-387) =====

/-- `otaInitOnce` (lines 351-366): idempotent first-use init; the
`ArduinoOTA` calls are external collaborator effects. -/
def otaInitOnce (s : Sys) : Sys :=
  if s.otaInitDone = true then s else { s with otaInitDone := true }

/-- `otaEnterOrExtendWindow` (lines 368-373). -/
def otaEnterOrExtendWindow (now : Nat) (s : Sys) : Sys :=
  let s1 := otaInitOnce s
  { s1 with otaEnabled := true, otaUntilMs := now + OTA_WINDOW_MS,
            led := statusLedActivityBurst now s1.led }

/-- `otaTick` (lines 375-387): note the early return when the link is
down, taken *before* the deadline check; `ArduinoOTA.handle()` is an
external collaborator call with no modelled state. -/
def otaTick (now : Nat) (wifi : Bool) (s : Sys) : Sys :=
  if s.otaEnabled = false then s
  else if wifi = false then s
  else if now ≥ s.otaUntilMs then { s with otaEnabled := false }
  else s

-- ===== Command dispatcher (lines 392-448) =====

/-- `enqueueCommand`: validates (cmd, payload) and enqueues actions or
flips engine state; never emits IR directly. -/
def enqueueCommand (now : Nat) (cmd : Nat) (payload : List Nat) (s : Sys) :
    Sys × Bool :=
  if s.otaEnabled = true then
    (if cmd = CMD_OTA_MODE then
      (if payload.length ≠ 0 then (s, false)
       else (otaEnterOrExtendWindow now s, true))
     else (s, false))
  else if cmd = CMD_OTA_MODE then
    (if payload.length ≠ 0 then (s, false)
     else (otaEnterOrExtendWindow now s, true))
  else if 1 ≤ cmd ∧ cmd ≤ 0x1B then
    (if cmd - 1 ≥ 27 then (s, false)
     else
       (let r := qPush s.queue ⟨ActionType.Press, cmd - 1⟩
        ({ s with queue := r.1 }, r.2)))
  else if cmd = CMD_MODE_SWITCH then
    (if s.queue.count > QSIZE - 6 then (s, false)
     else ({ s with queue := queueMacroModeSwitch s.queue }, true))
  else if cmd = CMD_RESET_SCOREBOARD then
    (if s.queue.count > QSIZE - 6 then (s, false)
     else ({ s with queue := queueMacroResetScoreboard s.queue }, true))
  else if cmd = CMD_SIREN then
    (if payload.length < 1 then (s, false)
     else if payload.getD 0 0 < 1 ∨ payload.getD 0 0 > 3 then (s, false)
     else if payload.length < 1 + payload.getD 0 0 * 4 then (s, false)
     else
       (let count := payload.getD 0 0
        let onArr : Nat → Nat := fun i =>
          if i < count then
            readU16LE (payload.getD (1 + 4 * i) 0) (payload.getD (2 + 4 * i) 0)
          else 0
        let offArr : Nat → Nat := fun i =>
          if i < count then
            readU16LE (payload.getD (3 + 4 * i) 0) (payload.getD (4 + 4 * i) 0)
          else 0
        ({ s with siren := sirenStart count onArr offArr now s.siren }, true)))
  else (s, false)

-- ===== Observable events =====

/-- Observable side effects of one scheduler phase:
an acknowledgement datagram, an IR transmission (`irsend.sendRC5`),
or a delay action arming the executor's deadline. -/
inductive Event : Type
  | ack (bytes : List Nat)
  | irSend (value bits : Nat)
  | delayStart (ms : Nat)
deriving DecidableEq

def Event.isAck : Event → Bool
  | .ack _ => true
  | _ => false

/-- `sendAck` (lines 333-346): the 7-byte acknowledgement datagram. -/
def ackBytes (id status : Nat) : List Nat :=
  [MAGIC, VER, CMD_ACK] ++ writeU16LE id ++ [status, 0]

-- ===== UDP processing (lines 453-500) =====

/-- `udp.read((char*)buf, sizeof(buf))` with `uint8_t buf[128]`: at most
128 bytes of the datagram are kept, each reduced mod 256 (`uint8_t`). -/
def rxBuf (pkt : List Nat) : List Nat :=
  (pkt.map (fun b => b % 256)).take 128

/-- One iteration of the `processUdp` while-loop body for one datagram:
read into the 128-byte `uint8_t buf`, validate, dedup, dispatch,
acknowledge.  Returns the new state and the emitted events. -/
def processPacket (now : Nat) (pkt : List Nat) (s : Sys) : Sys × List Event :=
  let buf := rxBuf pkt
  let len := buf.length
  if len < 6 then (s, [])
  else if buf.getD 0 0 ≠ MAGIC then (s, [])
  else if buf.getD 1 0 ≠ VER then (s, [])
  else
    let cmd := buf.getD 2 0
    let id := readU16LE (buf.getD 3 0) (buf.getD 4 0)
    let plen := buf.getD 5 0
    if 6 + plen ≠ len then
      ({ s with lastId := id, lastIdValid := true, lastAckStatus := 0 },
       [Event.ack (ackBytes id 0)])
    else if s.lastIdValid = true ∧ id = s.lastId then
      (s, [Event.ack (ackBytes id s.lastAckStatus)])
    else
      let payload := buf.drop 6
      let r := enqueueCommand now cmd payload s
      let st : Nat := if r.2 = true then 1 else 0
      let s2 := { r.1 with lastId := id, lastIdValid := true,
                           lastAckStatus := st }
      let s3 := if r.2 = true then
                  { s2 with led := statusLedActivityBurst now s2.led }
                else s2
      (s3, [Event.ack (ackBytes id st)])

/-- The full `processUdp` while-loop: drain all pending datagrams. -/
def processUdpList (now : Nat) (pkts : List (List Nat)) (s : Sys) :
    Sys × List Event :=
  match pkts with
  | [] => (s, [])
  | p :: rest =>
    let r1 := processPacket now p s
    let r2 := processUdpList now rest r1.1
    (r2.1, r1.2 ++ r2.2)

-- ===== Action executor (lines 505-525) =====

/-- `actionTick`: honour a pending delay, else dequeue and run at most one
action; a `Press` drives the RC5 encoder and triggers an LED burst. -/
def actionTick (now : Nat) (s : Sys) : Sys × List Event :=
  if s.delayUntilMs ≠ 0 ∧ now < s.delayUntilMs then (s, [])
  else
    let s0 := { s with delayUntilMs := 0 }
    if s0.queue.count = 0 then (s0, [])
    else
      match qPop s0.queue with
      | none => (s0, [])
      | some (a, q) =>
        let s1 := { s0 with queue := q }
        match a.type with
        | ActionType.Delay =>
          ({ s1 with delayUntilMs := now + a.arg }, [Event.delayStart a.arg])
        | ActionType.Press =>
          let idx := a.arg % 256
          if idx < 27 then
            let r := sendRc5Press s1.rc5Toggle idx
            ({ s1 with rc5Toggle := r.1,
                       led := statusLedActivityBurst now s1.led },
             [Event.irSend r.2.1 r.2.2])
          else (s1, [])

-- ===== Wi-Fi reconnect tick (lines 533-540) =====

def wifiTick (now : Nat) (wifi : Bool) (s : Sys) : Sys :=
  if wifi = true then s
  else if now < s.nextWifiRetryMs then s
  else { s with nextWifiRetryMs := now + WIFI_RETRY_INTERVAL_MS }

-- ===== Scheduler loop (lines 572-587) =====

/-- One `loop()` iteration: LED tick, Wi-Fi tick, UDP intake (only while
connected), OTA tick, action executor, siren tick — in source order.
`now` is the iteration's `millis()`, `wifi` the link state, `pkts` the
datagrams pending on the socket. -/
def loopIter (now : Nat) (wifi : Bool) (pkts : List (List Nat)) (s : Sys) :
    Sys × List Event :=
  let s0 := { s with led := statusLedTick now wifi s.led }
  let s1 := wifiTick now wifi s0
  let r2 := if wifi = true then processUdpList now pkts s1 else (s1, [])
  let s3 := otaTick now wifi r2.1
  let r4 := actionTick now s3
  let s5 := { r4.1 with siren := sirenTick now r4.1.siren }
  (s5, r2.2 ++ r4.2)

-- ===== Queue lemmas =====

theorem qPush_ok (q : Queue) (a : Action) (hwf : q.WF) (hc : q.count < 32) :
    (qPush q a).1.toList = q.toList ++ [a] ∧ (qPush q a).1.WF ∧
    (qPush q a).1.count = q.count + 1 ∧ (qPush q a).2 = true := by
  obtain ⟨hh, hle, ht⟩ := hwf
  simp only [QSIZE] at hh hle ht
  have hnot : ¬ q.count ≥ QSIZE := by simp only [QSIZE]; omega
  unfold qPush
  rw [if_neg hnot]
  refine ⟨?_, ⟨?_, ?_, ?_⟩, rfl, rfl⟩
  · unfold Queue.toList
    simp only
    rw [List.range_succ, List.map_append]
    congr 1
    · apply List.map_congr_left
      intro i hi
      have hi' : i < q.count := List.mem_range.mp hi
      have hne : (q.head + i) % QSIZE ≠ q.tail := by
        rw [ht]
        simp only [QSIZE]
        intro heq
        have hmod : i % 32 = q.count % 32 :=
          Nat.ModEq.add_left_cancel' q.head heq
        rw [Nat.mod_eq_of_lt (by omega), Nat.mod_eq_of_lt (by omega)] at hmod
        omega
      simp [hne]
    · have htl : (q.head + q.count) % QSIZE = q.tail := ht.symm
      simp [htl]
  · simpa [QSIZE] using hh
  · simp only [QSIZE]; omega
  · simp only [QSIZE]
    rw [ht]
    omega

theorem queuePress_ok (q : Queue) (idx : Nat) (hwf : q.WF) (hc : q.count < 32) :
    (queuePress idx q).toList = q.toList ++ [⟨ActionType.Press, idx⟩] ∧
    (queuePress idx q).WF ∧ (queuePress idx q).count = q.count + 1 := by
  have h := qPush_ok q ⟨ActionType.Press, idx⟩ hwf hc
  exact ⟨h.1, h.2.1, h.2.2.1⟩

theorem queueDelay_ok (q : Queue) (ms : Nat) (hwf : q.WF) (hc : q.count < 32) :
    (queueDelay ms q).toList = q.toList ++ [⟨ActionType.Delay, ms⟩] ∧
    (queueDelay ms q).WF ∧ (queueDelay ms q).count = q.count + 1 := by
  have h := qPush_ok q ⟨ActionType.Delay, ms⟩ hwf hc
  exact ⟨h.1, h.2.1, h.2.2.1⟩

/-- The mode-switch macro appends its six actions in order when at least
six slots are free. -/
theorem queueMacroModeSwitch_toList (q : Queue) (hwf : q.WF)
    (hc : q.count + 6 ≤ 32) :
    (queueMacroModeSwitch q).toList = q.toList ++
      [⟨ActionType.Press, IDX_EXIT⟩, ⟨ActionType.Delay, IR_GAP_MS_DEFAULT⟩,
       ⟨ActionType.Press, IDX_EXIT⟩, ⟨ActionType.Delay, IR_GAP_MS_DEFAULT⟩,
       ⟨ActionType.Press, IDX_EXIT⟩, ⟨ActionType.Delay, IR_GAP_MS_EXIT3_END⟩] := by
  unfold queueMacroModeSwitch
  obtain ⟨t1, w1, c1⟩ := queuePress_ok q IDX_EXIT hwf (by omega)
  obtain ⟨t2, w2, c2⟩ := queueDelay_ok _ IR_GAP_MS_DEFAULT w1 (by omega)
  obtain ⟨t3, w3, c3⟩ := queuePress_ok _ IDX_EXIT w2 (by omega)
  obtain ⟨t4, w4, c4⟩ := queueDelay_ok _ IR_GAP_MS_DEFAULT w3 (by omega)
  obtain ⟨t5, w5, c5⟩ := queuePress_ok _ IDX_EXIT w4 (by omega)
  obtain ⟨t6, w6, c6⟩ := queueDelay_ok _ IR_GAP_MS_EXIT3_END w5 (by omega)
  simp only [t1, t2, t3, t4, t5, t6, List.append_assoc]
  rfl

-- ===== Concrete states used by the claim theorems =====

/-- A queue filled with 26 single-press actions. -/
def fill26 : Queue :=
  (List.replicate 26 (⟨ActionType.Press, 0⟩ : Action)).foldl
    (fun q a => (qPush q a).1) emptyQueue

def sysQ26 : Sys := { initSys with queue := fill26 }

-- ===== Claim theorems =====

/-- C9: once admitted (≤ 26 queued actions, gate closed), the mode-switch
macro 0x40 enqueues exactly six actions in order — press(exit), delay,
press(exit), delay, press(exit), delay — with the first two gaps equal to
the default inter-press gap and the final gap strictly longer. -/
theorem c9_modeswitch_macro_actions (now : Nat) (payload : List Nat)
    (s : Sys) (hwf : s.queue.WF) (hota : s.otaEnabled = false)
    (hc : s.queue.count ≤ 26) :
    (enqueueCommand now CMD_MODE_SWITCH payload s).2 = true ∧
    (enqueueCommand now CMD_MODE_SWITCH payload s).1.queue.toList =
      s.queue.toList ++
      [⟨ActionType.Press, IDX_EXIT⟩, ⟨ActionType.Delay, IR_GAP_MS_DEFAULT⟩,
       ⟨ActionType.Press, IDX_EXIT⟩, ⟨ActionType.Delay, IR_GAP_MS_DEFAULT⟩,
       ⟨ActionType.Press, IDX_EXIT⟩, ⟨ActionType.Delay, IR_GAP_MS_EXIT3_END⟩] ∧
    IR_GAP_MS_EXIT3_END > IR_GAP_MS_DEFAULT := by
  have hq : ¬ s.queue.count > QSIZE - 6 := by simp only [QSIZE]; omega
  simp only [enqueueCommand, hota, CMD_MODE_SWITCH, CMD_OTA_MODE,
    CMD_RESET_SCOREBOARD, CMD_SIREN]
  norm_num
  rw [if_neg hq]
  refine ⟨rfl, ?_, by norm_num [IR_GAP_MS_EXIT3_END, IR_GAP_MS_DEFAULT]⟩
  exact queueMacroModeSwitch_toList s.queue hwf (by omega)

theorem c9_modeswitch_macro_actions_w :
    (enqueueCommand 0 CMD_MODE_SWITCH [] initSys).2 = true ∧
    (enqueueCommand 0 CMD_MODE_SWITCH [] initSys).1.queue.toList =
      initSys.queue.toList ++
      [⟨ActionType.Press, IDX_EXIT⟩, ⟨ActionType.Delay, IR_GAP_MS_DEFAULT⟩,
       ⟨ActionType.Press, IDX_EXIT⟩, ⟨ActionType.Delay, IR_GAP_MS_DEFAULT⟩,
       ⟨ActionType.Press, IDX_EXIT⟩, ⟨ActionType.Delay, IR_GAP_MS_EXIT3_END⟩] ∧
    IR_GAP_MS_EXIT3_END > IR_GAP_MS_DEFAULT :=
  c9_modeswitch_macro_actions 0 [] initSys (by decide) rfl (by decide)

/-- C1 (code evaluated at the failing input): with 26 actions queued, the
reset macro 0x41 is *admitted* (status 1) although its fixed action
sequence has seven actions — the capacity check only reserves six slots —
and only the first six actions fit: the final press of the reset index
(IDX_8) is silently dropped, so the macro is partially admitted,
contradicting the all-or-nothing claim. -/
theorem c1_reset_macro_partial_admission :
    fill26.count = 26 ∧
    (enqueueCommand 0 CMD_RESET_SCOREBOARD [] sysQ26).2 = true ∧
    (enqueueCommand 0 CMD_RESET_SCOREBOARD [] sysQ26).1.queue.count = 32 ∧
    (enqueueCommand 0 CMD_RESET_SCOREBOARD [] sysQ26).1.queue.toList =
      fill26.toList ++
      [⟨ActionType.Press, IDX_9⟩, ⟨ActionType.Delay, IR_GAP_MS_DEFAULT⟩,
       ⟨ActionType.Press, IDX_8⟩, ⟨ActionType.Delay, IR_GAP_MS_DEFAULT⟩,
       ⟨ActionType.Press, IDX_8⟩, ⟨ActionType.Delay, IR_GAP_MS_DEFAULT⟩] := by
  decide

def sysOta : Sys := { initSys with otaEnabled := true }

/-- C5: while the maintenance gate is open, every command other than the
mode-entry command 0x70 is rejected with the state completely unchanged
(nothing enqueued, siren untouched, deadline unmodified); 0x70 with an
empty payload succeeds and re-arms the window to `now + OTA_WINDOW_MS`. -/
theorem c5_gate_blocks_commands (now : Nat) (cmd : Nat) (payload : List Nat)
    (s : Sys) (hen : s.otaEnabled = true) :
    (cmd ≠ CMD_OTA_MODE → enqueueCommand now cmd payload s = (s, false)) ∧
    (cmd = CMD_OTA_MODE → payload = [] →
      (enqueueCommand now cmd payload s).2 = true ∧
      (enqueueCommand now cmd payload s).1.otaEnabled = true ∧
      (enqueueCommand now cmd payload s).1.otaUntilMs = now + OTA_WINDOW_MS) := by
  constructor
  · intro hne
    simp [enqueueCommand, hen, hne]
  · intro he hp
    subst he
    subst hp
    simp [enqueueCommand, hen, otaEnterOrExtendWindow]

theorem c5_gate_blocks_commands_w :
    enqueueCommand 0 5 [] sysOta = (sysOta, false) ∧
    (enqueueCommand 0 CMD_OTA_MODE [] sysOta).2 = true ∧
    (enqueueCommand 0 CMD_OTA_MODE [] sysOta).1.otaUntilMs =
      0 + OTA_WINDOW_MS :=
  ⟨(c5_gate_blocks_commands 0 5 [] sysOta rfl).1 (by decide),
   ((c5_gate_blocks_commands 0 CMD_OTA_MODE [] sysOta rfl).2 rfl rfl).1,
   ((c5_gate_blocks_commands 0 CMD_OTA_MODE [] sysOta rfl).2 rfl rfl).2.2⟩

def sysGate : Sys := { initSys with otaEnabled := true, otaUntilMs := 5 }

/-- C4 counterexample: the gate is enabled and the deadline (5) has passed
at tick time 10, but the link is down — `otaTick` returns early on the
connectivity check and leaves the gate open, refuting "the very next
scheduler tick closes the gate regardless of link connectivity". -/
theorem c4_gate_open_when_link_down :
    sysGate.otaEnabled = true ∧ 10 ≥ sysGate.otaUntilMs ∧
    (otaTick 10 false sysGate).otaEnabled = true := by decide

/-- C4 (amended): with the gate enabled and the deadline reached or
passed, the next tick closes the gate provided the link is connected;
with the link down the tick returns with the whole state untouched. -/
theorem c4_gate_closes_on_deadline (now : Nat) (s : Sys)
    (hen : s.otaEnabled = true) (hd : now ≥ s.otaUntilMs) :
    (otaTick now true s).otaEnabled = false ∧ otaTick now false s = s := by
  constructor
  · simp [otaTick, hen, hd]
  · simp [otaTick, hen]

theorem c4_gate_closes_on_deadline_w :
    (otaTick 10 true sysGate).otaEnabled = false ∧
    otaTick 10 false sysGate = sysGate :=
  c4_gate_closes_on_deadline 10 sysGate rfl (by decide)

-- ===== RC5 toggle alternation =====

/-- Every table row's toggle-0 variant has the toggle bit clear and its
toggle-1 variant has it set. -/
theorem rc5_table_toggle_bit : ∀ i < 27,
    (RC5_TABLE.getD i default).v_t0 &&& RC5_TOGGLE_MASK_12BIT = 0 ∧
    (RC5_TABLE.getD i default).v_t1 &&& RC5_TOGGLE_MASK_12BIT =
      RC5_TOGGLE_MASK_12BIT := by decide

/-- A sequence of presses through the RC5 encoder: final toggle state and
the emitted code values, in order. -/
def runPresses (t : Nat) (ps : List Nat) : Nat × List Nat :=
  match ps with
  | [] => (t, [])
  | i :: rest =>
    let r := sendRc5Press t i
    let rr := runPresses r.1 rest
    (rr.1, r.2.1 :: rr.2)

/-- C6: for every sequence of presses (single commands or macro steps
alike) with valid table indices, the toggle bit (mask 0x800) of the k-th
emitted code equals the initial toggle state advanced by k+1 flips —
it alternates on every successive press, starting from the boot-time
initial value, independent of which indices are pressed. -/
theorem c6_toggle_alternates (t : Nat) (ps : List Nat) (ht : t ≤ 1)
    (hps : ∀ i ∈ ps, i < 27) :
    ∀ k, k < ps.length →
      (runPresses t ps).2.getD k 0 &&& RC5_TOGGLE_MASK_12BIT =
        (if (t + k + 1) % 2 = 1 then RC5_TOGGLE_MASK_12BIT else 0) := by
  induction ps generalizing t with
  | nil => intro k hk; simp at hk
  | cons i rest ih =>
    intro k hk
    have hi : i < 27 := hps i (by simp)
    have hrest : ∀ j ∈ rest, j < 27 := fun j hj => hps j (by simp [hj])
    match k with
    | 0 =>
      show (sendRc5Press t i).2.1 &&& RC5_TOGGLE_MASK_12BIT = _
      unfold sendRc5Press
      interval_cases t
      · simpa using (rc5_table_toggle_bit i hi).2
      · simpa using (rc5_table_toggle_bit i hi).1
    | k + 1 =>
      have ht' : t ^^^ 1 ≤ 1 := by interval_cases t <;> decide
      have hrec := ih (t ^^^ 1) ht' hrest k (by simpa using hk)
      have hpar : ((t ^^^ 1) + k + 1) % 2 = (t + (k + 1) + 1) % 2 := by
        interval_cases t <;> simp <;> omega
      rw [hpar] at hrec
      simpa [runPresses] using hrec

theorem c6_toggle_alternates_w :
    (runPresses 0 [4, 9, 0]).2.getD 1 0 &&& RC5_TOGGLE_MASK_12BIT =
      (if (0 + 1 + 1) % 2 = 1 then RC5_TOGGLE_MASK_12BIT else 0) :=
  c6_toggle_alternates 0 [4, 9, 0] (by decide) (by decide) 1 (by decide)

/-- C2: processing the same datagram a second time emits exactly the same
(7-byte) acknowledgement bytes as the first time and changes nothing at
all — in particular the dispatcher is not re-entered, so the underlying
command executes at most once per request id. -/
theorem c2_dedup_at_most_once (now now' : Nat) (pkt : List Nat) (s : Sys) :
    (processPacket now' pkt (processPacket now pkt s).1).1 =
      (processPacket now pkt s).1 ∧
    (processPacket now' pkt (processPacket now pkt s).1).2 =
      (processPacket now pkt s).2 ∧
    (∀ bs, Event.ack bs ∈ (processPacket now pkt s).2 → bs.length = 7) := by
  simp only [processPacket]
  set B := rxBuf pkt with hB
  by_cases h6 : B.length < 6
  · simp [h6]
  · by_cases hmg : B[0]?.getD 0 = MAGIC
    · by_cases hvr : B[1]?.getD 0 = VER
      · by_cases hlen : 6 + B[5]?.getD 0 = B.length
        · by_cases hdup : s.lastIdValid = true ∧
              readU16LE (B[3]?.getD 0) (B[4]?.getD 0) = s.lastId
          · simp [h6, hmg, hvr, hlen, hdup, ackBytes, writeU16LE]
          · by_cases hok :
                (enqueueCommand now (B[2]?.getD 0) (B.drop 6) s).2 = true
            · simp [h6, hmg, hvr, hlen, hdup, hok, ackBytes, writeU16LE]
            · simp [h6, hmg, hvr, hlen, hdup, hok, ackBytes, writeU16LE]
        · simp [h6, hmg, hvr, hlen, ackBytes, writeU16LE]
      · simp [h6, hmg, hvr]
    · simp [h6, hmg]

/-- A 300-byte datagram: valid magic/version, command 0x05, id 42, and a
declared payload length of 122, chosen so that the 128-byte receive
buffer truncates it to exactly `6 + 122` bytes. -/
def pkt300 : List Nat :=
  [0xA5, 0x01, 0x05, 42, 0, 122] ++ List.replicate 294 0

set_option maxRecDepth 4000 in
/-- C7 counterexample: this datagram passes magic/version and its total
length (300) does **not** equal 6 + declared payload length (122), yet it
is acknowledged with status 1: `udp.read` keeps only the first 128 bytes,
and the truncated length happens to satisfy the strict length check. -/
theorem c7_oversized_datagram_acked_accepted :
    pkt300.length = 300 ∧
    pkt300.getD 0 0 = MAGIC ∧
    pkt300.getD 1 0 = VER ∧
    pkt300.getD 5 0 = 122 ∧
    6 + pkt300.getD 5 0 ≠ pkt300.length ∧
    (processPacket 0 pkt300 initSys).2 = [Event.ack (ackBytes 42 1)] := by
  decide

/-- C7 (amended for the 128-byte receive buffer): for every datagram whose
*received* prefix (`rxBuf`, at most 128 bytes) passes magic and version
but whose received length differs from 6 + declared payload length, an
acknowledgement with status 0 is emitted echoing the extracted request id
and the dedup record is set to (id, valid, 0) with nothing else changed,
so a resend of the same malformed datagram replays the same rejection;
datagrams whose received prefix is shorter than 6 bytes or fails
magic/version are dropped: no acknowledgement, no state change. -/
theorem c7_length_mismatch_status0 (now now' : Nat) (pkt : List Nat)
    (s : Sys) :
    (¬ (rxBuf pkt).length < 6 →
     (rxBuf pkt).getD 0 0 = MAGIC →
     (rxBuf pkt).getD 1 0 = VER →
     6 + (rxBuf pkt).getD 5 0 ≠ (rxBuf pkt).length →
      processPacket now pkt s =
        ({ s with
            lastId := readU16LE ((rxBuf pkt).getD 3 0) ((rxBuf pkt).getD 4 0),
            lastIdValid := true, lastAckStatus := 0 },
         [Event.ack (ackBytes
            (readU16LE ((rxBuf pkt).getD 3 0) ((rxBuf pkt).getD 4 0)) 0)]) ∧
      (processPacket now' pkt (processPacket now pkt s).1).2 =
        [Event.ack (ackBytes
           (readU16LE ((rxBuf pkt).getD 3 0) ((rxBuf pkt).getD 4 0)) 0)]) ∧
    ((rxBuf pkt).length < 6 ∨ (rxBuf pkt).getD 0 0 ≠ MAGIC ∨
        (rxBuf pkt).getD 1 0 ≠ VER →
      processPacket now pkt s = (s, [])) := by
  constructor
  · intro h6 hmg hvr hlen
    simp only [List.getD_eq_getElem?_getD] at hmg hvr hlen ⊢
    simp [processPacket, h6, hmg, hvr, hlen]
  · intro h
    rcases h with h | h | h
    · simp [processPacket, h]
    · by_cases h6 : (rxBuf pkt).length < 6
      · simp [processPacket, h6]
      · simp only [List.getD_eq_getElem?_getD] at h
        simp [processPacket, h6, h]
    · by_cases h6 : (rxBuf pkt).length < 6
      · simp [processPacket, h6]
      · simp only [List.getD_eq_getElem?_getD] at h
        simp [processPacket, h6, h]

/-- A 6-byte frame declaring a 9-byte payload that is not present. -/
def pktBadLen : List Nat := [0xA5, 0x01, 0x05, 7, 0, 9]

theorem c7_length_mismatch_status0_w :
    (processPacket 0 pktBadLen initSys =
       ({ initSys with lastId := 7, lastIdValid := true, lastAckStatus := 0 },
        [Event.ack (ackBytes 7 0)]) ∧
     (processPacket 3 pktBadLen (processPacket 0 pktBadLen initSys).1).2 =
       [Event.ack (ackBytes 7 0)]) ∧
    processPacket 0 [1, 2] initSys = (initSys, []) :=
  ⟨(c7_length_mismatch_status0 0 3 pktBadLen initSys).1
     (by decide) (by decide) (by decide) (by decide),
   (c7_length_mismatch_status0 0 0 [1, 2] initSys).2 (Or.inl (by decide))⟩

-- ===== Event-ordering lemmas =====

/-- The UDP intake path emits only acknowledgement events — the dispatcher
only enqueues actions, it never drives the IR encoder. -/
theorem processPacket_events_ack (now : Nat) (pkt : List Nat) (s : Sys) :
    ∀ e ∈ (processPacket now pkt s).2, e.isAck = true := by
  intro e he
  simp only [processPacket] at he
  repeat' split at he
  all_goals simp_all [Event.isAck]

theorem processUdpList_events_ack (now : Nat) (pkts : List (List Nat))
    (s : Sys) : ∀ e ∈ (processUdpList now pkts s).2, e.isAck = true := by
  induction pkts generalizing s with
  | nil => simp [processUdpList]
  | cons p rest ih =>
    intro e he
    simp only [processUdpList] at he
    rw [List.mem_append] at he
    rcases he with he | he
    · exact processPacket_events_ack now p s e he
    · exact ih _ e he

/-- The action executor emits only execution events, never acks. -/
theorem actionTick_events_not_ack (now : Nat) (s : Sys) :
    ∀ e ∈ (actionTick now s).2, e.isAck = false := by
  intro e he
  simp only [actionTick] at he
  repeat' split at he
  all_goals simp_all [Event.isAck]

theorem acks_precede_in_append {l₁ l₂ : List Event}
    (h₁ : ∀ e ∈ l₁, e.isAck = true) (h₂ : ∀ e ∈ l₂, e.isAck = false)
    (i j : Nat) (hi : i < (l₁ ++ l₂).length) (hj : j < (l₁ ++ l₂).length)
    (hai : ((l₁ ++ l₂).getD i (Event.ack [])).isAck = true)
    (haj : ((l₁ ++ l₂).getD j (Event.ack [])).isAck = false) : i < j := by
  rw [List.length_append] at hi hj
  have hiU : i < l₁.length := by
    by_contra hge
    push_neg at hge
    rw [List.getD_append_right l₁ l₂ (Event.ack []) i hge] at hai
    have hlt : i - l₁.length < l₂.length := by omega
    have hmem : l₂.getD (i - l₁.length) (Event.ack []) ∈ l₂ := by
      rw [List.getD_eq_getElem l₂ (Event.ack []) hlt]
      exact List.getElem_mem hlt
    rw [h₂ _ hmem] at hai
    exact Bool.false_ne_true hai
  have hjA : l₁.length ≤ j := by
    by_contra hlt
    push_neg at hlt
    rw [List.getD_append l₁ l₂ (Event.ack []) j hlt] at haj
    have hmem : l₁.getD j (Event.ack []) ∈ l₁ := by
      rw [List.getD_eq_getElem l₁ (Event.ack []) hlt]
      exact List.getElem_mem hlt
    rw [h₁ _ hmem] at haj
    exact absurd haj (by simp)
  omega

/-- C3: within one scheduler loop iteration, every acknowledgement in the
emitted event trace precedes every executed action event (IR press or
delay start): the UDP intake phase (parser, dedup, dispatcher, ack send)
only enqueues actions and emits acks, and the action executor — which the
loop runs strictly after intake — is the only emitter of press/delay
events, so a command's ack is sent before any of its actions executes. -/
theorem c3_ack_before_execution (now : Nat) (wifi : Bool)
    (pkts : List (List Nat)) (s : Sys) :
    ∀ i j, i < (loopIter now wifi pkts s).2.length →
      j < (loopIter now wifi pkts s).2.length →
      ((loopIter now wifi pkts s).2.getD i (Event.ack [])).isAck = true →
      ((loopIter now wifi pkts s).2.getD j (Event.ack [])).isAck = false →
      i < j := by
  intro i j hi hj hai haj
  simp only [loopIter] at hi hj hai haj
  refine acks_precede_in_append ?_ ?_ i j hi hj hai haj
  · by_cases hw : wifi = true
    · simp only [hw, if_pos]
      exact processUdpList_events_ack now pkts _
    · simp [hw]
  · exact actionTick_events_not_ack now _

/-- A well-formed single-press frame: command 0x03, id 42, no payload. -/
def pktPress : List Nat := [0xA5, 0x01, 0x03, 42, 0, 0]

theorem c2_dedup_at_most_once_w :
    (processPacket 3 pktPress (processPacket 0 pktPress initSys).1).1 =
      (processPacket 0 pktPress initSys).1 ∧
    (processPacket 3 pktPress (processPacket 0 pktPress initSys).1).2 =
      (processPacket 0 pktPress initSys).2 ∧
    (ackBytes 42 1).length = 7 :=
  ⟨(c2_dedup_at_most_once 0 3 pktPress initSys).1,
   (c2_dedup_at_most_once 0 3 pktPress initSys).2.1,
   (c2_dedup_at_most_once 0 3 pktPress initSys).2.2 (ackBytes 42 1)
     (by decide)⟩

theorem c3_ack_before_execution_w :
    (loopIter 0 true [pktPress] initSys).2.length = 2 ∧
    ((loopIter 0 true [pktPress] initSys).2.getD 0 (Event.ack [])).isAck
      = true ∧
    ((loopIter 0 true [pktPress] initSys).2.getD 1 (Event.ack [])).isAck
      = false ∧
    0 < 1 :=
  ⟨by decide, by decide, by decide,
   c3_ack_before_execution 0 true [pktPress] initSys 0 1
     (by decide) (by decide) (by decide) (by decide)⟩

-- ===== Siren trace (claim C8) =====

/-- Siren payload: count=2, on=[200,300], off=[100,150] (little-endian:
300 = 44 + 1*256). -/
def pay8 : List Nat := [2, 200, 0, 100, 0, 44, 1, 150, 0]

def sir8a : SirenState := (enqueueCommand 0 CMD_SIREN pay8 initSys).1.siren
def sir8b : SirenState := sirenTick 200 sir8a
def sir8c : SirenState := sirenTick 300 sir8b
def sir8d : SirenState := sirenTick 600 sir8c
def sir8e : SirenState := sirenTick 750 sir8d

/-- C8: a siren command with count=2, on=[200,300], off=[100,150] drives
the output high for 200ms, low for 100ms, high for 300ms, low for 150ms,
then low indefinitely with the engine stopped; no transition is taken by
a tick before its deadline, and each is taken at the first tick at or
after it.  Moreover dispatching a valid siren command at any moment —
including mid-sequence — restarts the engine at phase 0, phase ON, output
high, with the new durations (the previous phase position is discarded:
the post-state is independent of the previous siren state). -/
theorem c8_siren_pulse_train :
    ((enqueueCommand 0 CMD_SIREN pay8 initSys).2 = true) ∧
    (sir8a.out = true ∧ sir8a.active = true ∧ sir8a.nextMs = 200) ∧
    (∀ t, t < 200 → sirenTick t sir8a = sir8a) ∧
    (sir8b.out = false ∧ sir8b.active = true ∧ sir8b.nextMs = 300) ∧
    (∀ t, t < 300 → sirenTick t sir8b = sir8b) ∧
    (sir8c.out = true ∧ sir8c.active = true ∧ sir8c.nextMs = 600 ∧
      sir8c.index = 1) ∧
    (∀ t, t < 600 → sirenTick t sir8c = sir8c) ∧
    (sir8d.out = false ∧ sir8d.active = true ∧ sir8d.nextMs = 750) ∧
    (∀ t, t < 750 → sirenTick t sir8d = sir8d) ∧
    (sir8e.out = false ∧ sir8e.active = false) ∧
    (∀ t, sirenTick t sir8e = sir8e) ∧
    (∀ now p s, 1 ≤ p.getD 0 0 → p.getD 0 0 ≤ 3 →
      1 + 4 * p.getD 0 0 ≤ p.length → s.otaEnabled = false →
      (enqueueCommand now CMD_SIREN p s).2 = true ∧
      (enqueueCommand now CMD_SIREN p s).1.siren.index = 0 ∧
      (enqueueCommand now CMD_SIREN p s).1.siren.phaseOn = true ∧
      (enqueueCommand now CMD_SIREN p s).1.siren.out = true ∧
      (enqueueCommand now CMD_SIREN p s).1.siren.active = true ∧
      (enqueueCommand now CMD_SIREN p s).1.siren.count = p.getD 0 0 ∧
      (enqueueCommand now CMD_SIREN p s).1.siren.nextMs =
        now + readU16LE (p.getD 1 0) (p.getD 2 0)) := by
  refine ⟨by decide, ⟨by decide, by decide, by decide⟩, ?_,
    ⟨by decide, by decide, by decide⟩, ?_,
    ⟨by decide, by decide, by decide, by decide⟩, ?_,
    ⟨by decide, by decide, by decide⟩, ?_,
    ⟨by decide, by decide⟩, ?_, ?_⟩
  · intro t ht
    have h1 : sir8a.active = true := by decide
    have h2 : sir8a.nextMs = 200 := by decide
    simp [sirenTick, h1, h2, ht]
  · intro t ht
    have h1 : sir8b.active = true := by decide
    have h2 : sir8b.nextMs = 300 := by decide
    simp [sirenTick, h1, h2, ht]
  · intro t ht
    have h1 : sir8c.active = true := by decide
    have h2 : sir8c.nextMs = 600 := by decide
    simp [sirenTick, h1, h2, ht]
  · intro t ht
    have h1 : sir8d.active = true := by decide
    have h2 : sir8d.nextMs = 750 := by decide
    simp [sirenTick, h1, h2, ht]
  · intro t
    have h1 : sir8e.active = false := by decide
    simp [sirenTick, h1]
  · intro now p s hc1 hc3 hlen hota
    simp only [List.getD_eq_getElem?_getD] at hc1 hc3 hlen ⊢
    have h1 : p ≠ [] := List.ne_nil_of_length_pos (by omega)
    have h2 : ¬ (p[0]?.getD 0 = 0 ∨ 3 < p[0]?.getD 0) := by omega
    have h3 : ¬ p.length < 1 + p[0]?.getD 0 * 4 := by omega
    have h0 : 0 < p[0]?.getD 0 := hc1
    simp only [enqueueCommand, hota, CMD_SIREN, CMD_OTA_MODE,
      CMD_MODE_SWITCH, CMD_RESET_SCOREBOARD,
      List.getD_eq_getElem?_getD]
    norm_num
    rw [if_neg h1, if_neg h2, if_neg h3]
    simp [sirenStart, h0, readU16LE]

/-- A system caught mid-sequence: the C8 pulse train in its second ON
phase. -/
def sysMid : Sys := { initSys with siren := sir8c }

theorem c8_siren_pulse_train_w :
    sirenTick 100 sir8a = sir8a ∧
    ((enqueueCommand 7 CMD_SIREN [1, 50, 0, 60, 0] sysMid).2 = true ∧
     (enqueueCommand 7 CMD_SIREN [1, 50, 0, 60, 0] sysMid).1.siren.index
       = 0 ∧
     (enqueueCommand 7 CMD_SIREN [1, 50, 0, 60, 0] sysMid).1.siren.phaseOn
       = true ∧
     (enqueueCommand 7 CMD_SIREN [1, 50, 0, 60, 0] sysMid).1.siren.out
       = true ∧
     (enqueueCommand 7 CMD_SIREN [1, 50, 0, 60, 0] sysMid).1.siren.active
       = true ∧
     (enqueueCommand 7 CMD_SIREN [1, 50, 0, 60, 0] sysMid).1.siren.count
       = 1 ∧
     (enqueueCommand 7 CMD_SIREN [1, 50, 0, 60, 0] sysMid).1.siren.nextMs
       = 7 + readU16LE 50 0) :=
  ⟨c8_siren_pulse_train.2.2.1 100 (by decide),
   c8_siren_pulse_train.2.2.2.2.2.2.2.2.2.2.2 7 [1, 50, 0, 60, 0] sysMid
     (by decide) (by decide) (by decide) (by decide)⟩

/-- C10: with the maintenance gate closed, the dispatcher's accept/reject
decision and resulting state for single-press commands (0x01..0x1B) and
for both macros (0x40, 0x41) are fully independent of the payload (a
non-empty payload is processed exactly like an empty one); a siren frame
whose payload is at least 1 + 4*count bytes is accepted and the extra
bytes are ignored (the result equals dispatching the truncated payload);
and only the maintenance-entry command 0x70 rejects a non-empty payload
(accepting the empty one). -/
theorem c10_payload_ignored (now : Nat) (cmd : Nat) (p : List Nat)
    (s : Sys) (hota : s.otaEnabled = false) :
    ((1 ≤ cmd ∧ cmd ≤ 0x1B) ∨ cmd = CMD_MODE_SWITCH ∨
        cmd = CMD_RESET_SCOREBOARD →
      enqueueCommand now cmd p s = enqueueCommand now cmd [] s) ∧
    (1 ≤ p.getD 0 0 → p.getD 0 0 ≤ 3 → 1 + 4 * p.getD 0 0 ≤ p.length →
      (enqueueCommand now CMD_SIREN p s).2 = true ∧
      enqueueCommand now CMD_SIREN p s =
        enqueueCommand now CMD_SIREN (p.take (1 + 4 * p.getD 0 0)) s) ∧
    (p ≠ [] → enqueueCommand now CMD_OTA_MODE p s = (s, false)) ∧
    (enqueueCommand now CMD_OTA_MODE [] s).2 = true := by
  refine ⟨?_, ?_, ?_, ?_⟩
  · intro h
    rcases h with h | h | h
    · have hne : cmd ≠ CMD_OTA_MODE := by
        simp only [CMD_OTA_MODE]; omega
      have h27 : ¬ cmd - 1 ≥ 27 := by omega
      simp [enqueueCommand, hota, hne, h, h27]
    · subst h
      simp only [enqueueCommand, hota, CMD_MODE_SWITCH, CMD_OTA_MODE]
      norm_num
    · subst h
      simp only [enqueueCommand, hota, CMD_RESET_SCOREBOARD, CMD_OTA_MODE]
      norm_num
  · intro hc1 hc3 hlen
    simp only [List.getD_eq_getElem?_getD] at hc1 hc3 hlen ⊢
    have hp0 : p ≠ [] := List.ne_nil_of_length_pos (by omega)
    have h2 : ¬ (p[0]?.getD 0 = 0 ∨ 3 < p[0]?.getD 0) := by omega
    have h3 : ¬ p.length < 1 + p[0]?.getD 0 * 4 := by omega
    have hqget : ∀ i, i < 1 + 4 * p[0]?.getD 0 →
        (p.take (1 + 4 * p[0]?.getD 0))[i]? = p[i]? := by
      intro i hi
      rw [List.getElem?_take, if_pos hi]
    have h4 : ¬ (4 * p[0]?.getD 0 < p[0]?.getD 0 * 4 ∨
        p.length < 1 + p[0]?.getD 0 * 4) := by omega
    simp only [enqueueCommand, hota, CMD_SIREN, CMD_OTA_MODE,
      CMD_MODE_SWITCH, CMD_RESET_SCOREBOARD, List.getD_eq_getElem?_getD]
    norm_num
    rw [if_neg hp0, if_neg h2, if_neg h3, if_neg hp0, if_neg h2,
      if_neg h4]
    refine ⟨rfl, ?_⟩
    have hon : (fun i => if i < p[0]?.getD 0 then
          readU16LE ((p.take (1 + 4 * p[0]?.getD 0))[1 + 4 * i]?.getD 0)
            ((p.take (1 + 4 * p[0]?.getD 0))[2 + 4 * i]?.getD 0)
        else 0) =
        (fun i => if i < p[0]?.getD 0 then
          readU16LE (p[1 + 4 * i]?.getD 0) (p[2 + 4 * i]?.getD 0)
        else 0) := by
      funext i
      by_cases hi : i < p[0]?.getD 0
      · rw [if_pos hi, if_pos hi, hqget (1 + 4 * i) (by omega),
          hqget (2 + 4 * i) (by omega)]
      · rw [if_neg hi, if_neg hi]
    have hoff : (fun i => if i < p[0]?.getD 0 then
          readU16LE ((p.take (1 + 4 * p[0]?.getD 0))[3 + 4 * i]?.getD 0)
            ((p.take (1 + 4 * p[0]?.getD 0))[4 + 4 * i]?.getD 0)
        else 0) =
        (fun i => if i < p[0]?.getD 0 then
          readU16LE (p[3 + 4 * i]?.getD 0) (p[4 + 4 * i]?.getD 0)
        else 0) := by
      funext i
      by_cases hi : i < p[0]?.getD 0
      · rw [if_pos hi, if_pos hi, hqget (3 + 4 * i) (by omega),
          hqget (4 + 4 * i) (by omega)]
      · rw [if_neg hi, if_neg hi]
    rw [hon, hoff]
  · intro hne
    simp [enqueueCommand, hota, hne]
  · simp [enqueueCommand, hota]

theorem c10_payload_ignored_w :
    enqueueCommand 0 5 [9, 9] initSys = enqueueCommand 0 5 [] initSys ∧
    ((enqueueCommand 0 CMD_SIREN [1, 50, 0, 60, 0, 77] initSys).2 = true ∧
      enqueueCommand 0 CMD_SIREN [1, 50, 0, 60, 0, 77] initSys =
        enqueueCommand 0 CMD_SIREN [1, 50, 0, 60, 0] initSys) ∧
    enqueueCommand 0 CMD_OTA_MODE [1] initSys = (initSys, false) ∧
    (enqueueCommand 0 CMD_OTA_MODE [] initSys).2 = true :=
  ⟨(c10_payload_ignored 0 5 [9, 9] initSys rfl).1 (Or.inl (by decide)),
   (c10_payload_ignored 0 0 [1, 50, 0, 60, 0, 77] initSys rfl).2.1
     (by decide) (by decide) (by decide),
   (c10_payload_ignored 0 0 [1] initSys rfl).2.2.1 (by decide),
   (c10_payload_ignored 0 0 [] initSys rfl).2.2.2⟩

end Firmware
